import Mathlib

/-!
Verification of the NCBI record retrieval script
(`2025py2_s28382/s28382_2025-2.py`).

The script defines a class `NCBIRetriever` with operations
`search_taxid`, `fetch_records`, `filter_by_length`, `generate_csv`,
`generate_plot`, and a `main` orchestration function.  We embed the
script shallowly: the remote Entrez service is an oracle (`Remote`),
instance attributes that may be absent (`webenv`, `query_key`, `count`)
are `Option` fields, Python exceptions caught by `try/except` blocks
are `Option.none` results of the oracle, and `print` calls become an
explicit log of strings.  File outputs (CSV table, plot) are returned
as explicit values.
-/

/-- A GenBank record as used by the script: `rec.id`, `rec.seq`
(whose `len` the script takes) and `rec.description`. -/
structure Record where
  id : String
  seq : String
  description : String
deriving Repr, DecidableEq

namespace Record

/-- `len(rec.seq)` in the script. -/
def seqLen (r : Record) : Nat := r.seq.length

end Record

/-- The payload of a successful `Entrez.esearch` + `Entrez.read`:
`Count`, `WebEnv`, `QueryKey`. -/
structure SearchData where
  count : Nat
  webEnv : String
  queryKey : String
deriving Repr, DecidableEq

/-- The remote Entrez service as an oracle.  A `none` result models the
call (or the parsing of its response) raising an exception, which the
script catches. -/
structure Remote where
  /-- `Entrez.efetch(db="taxonomy", id=taxid, retmode="xml")` followed by
  `Entrez.read` and the `ScientificName` projection. -/
  taxonomyLookup : String → Option String
  /-- `Entrez.esearch(db="nucleotide", term=..., usehistory="y")` followed
  by `Entrez.read`; keyed by the search term. -/
  esearch : String → Option SearchData
  /-- `Entrez.efetch(db="nucleotide", rettype="gb", ...)` followed by
  `SeqIO.parse`; keyed by webenv, query_key, retstart, retmax. -/
  efetchParse : String → String → Int → Int → Option (List Record)

/-- The mutable state of an `NCBIRetriever` instance.  The attributes
`webenv`, `query_key` and `count` are only created by a successful
`search_taxid`; `hasattr` checks become `Option.isSome`. -/
structure NCBIRetriever where
  webenv : Option String := none
  query_key : Option String := none
  count : Option Nat := none
deriving Repr, DecidableEq

/-- `NCBIRetriever.search_taxid(self, taxid)`.  Returns the updated
instance state, the Python return value (`None` or the count) and the
log of printed lines.  The Python code returns `None` without touching
the instance both when the count is 0 and when an exception occurs, and
stores `webenv`, `query_key` and `count` only on the successful path. -/
def search_taxid (remote : Remote) (self : NCBIRetriever) (taxid : String) :
    NCBIRetriever × Option Nat × List String :=
  let log0 := ["Searching for records with taxID: " ++ taxid]
  match remote.taxonomyLookup taxid with
  | none => (self, none, log0 ++ ["Error searching TaxID " ++ taxid])
  | some organism_name =>
    let log1 := log0 ++ ["Organism: " ++ organism_name ++ " (TaxID: " ++ taxid ++ ")"]
    match remote.esearch ("txid" ++ taxid ++ "[Organism]") with
    | none => (self, none, log1 ++ ["Error searching TaxID " ++ taxid])
    | some sr =>
      let log2 := log1 ++
        ["Found " ++ toString sr.count ++ " records for " ++ organism_name ++
          " (TaxID: " ++ taxid ++ ")"]
      if sr.count = 0 then
        (self, none, log2)
      else
        ({ webenv := some sr.webEnv, query_key := some sr.queryKey,
           count := some sr.count }, some sr.count, log2)

/-- One remote fetch request as issued by `fetch_records`: the keyword
arguments of the `Entrez.efetch` call. -/
structure FetchRequest where
  db : String
  rettype : String
  retmode : String
  retstart : Int
  retmax : Int
  webenv : String
  query_key : String
deriving Repr, DecidableEq

/-- `NCBIRetriever.fetch_records(self, start=0, max_records=100)`.
Returns the fetched records, the list of remote requests issued, and
the log of printed lines.  Missing `webenv`/`query_key` attributes make
it return `[]` with a diagnostic; a fetch/parse exception makes it
return `[]` with a diagnostic. -/
def fetch_records (remote : Remote) (self : NCBIRetriever)
    (start : Int) (max_records : Int) :
    List Record × List FetchRequest × List String :=
  match self.webenv, self.query_key with
  | some we, some qk =>
    let batch_size := min max_records 500
    let req : FetchRequest :=
      { db := "nucleotide", rettype := "gb", retmode := "text",
        retstart := start, retmax := batch_size, webenv := we, query_key := qk }
    match remote.efetchParse we qk start batch_size with
    | some records => (records, [req], [])
    | none => ([], [req], ["Error fetching records"])
  | _, _ => ([], [], ["No search results to fetch. Run search_taxid() first."])

/-- `NCBIRetriever.filter_by_length(self, records, min_len, max_len)`:
the list comprehension keeping records with
`min_len <= len(rec.seq) <= max_len`. -/
def filter_by_length (records : List Record) (min_len max_len : Int) :
    List Record :=
  records.filter
    (fun rec => decide (min_len ≤ (rec.seqLen : Int)) &&
      decide ((rec.seqLen : Int) ≤ max_len))

/-- A pandas `DataFrame` at the fidelity the script needs: column names
and string-valued rows. -/
structure DataFrame where
  columns : List String
  rows : List (List String)
deriving Repr, DecidableEq

namespace DataFrame

/-- `df.to_csv(filename, index=index)` as the list of CSV rows: with
`index := true` pandas prepends an index column; the script passes
`index=False`, so no index column is prepended. -/
def to_csv (df : DataFrame) (index : Bool) : List (List String) :=
  if index then
    ("" :: df.columns) ::
      (df.rows.enum.map (fun p => toString p.1 :: p.2))
  else
    df.columns :: df.rows

end DataFrame

/-- `NCBIRetriever.generate_csv(self, records, filename)`: builds the
`(id, len(seq), description)` tuples, the `DataFrame` with the three
column names, and writes it with `index=False`.  Returns the written
filename, the CSV rows, and the log. -/
def generate_csv (records : List Record) (filename : String) :
    String × List (List String) × List String :=
  let data := records.map
    (fun record => [record.id, toString record.seqLen, record.description])
  let df : DataFrame :=
    { columns := ["Accession number", "Length", "Description"], rows := data }
  (filename, df.to_csv false, ["Saved CSV report to " ++ filename])

/-- One step of Python's stable sort with `key=len(seq)` and
`reverse=True`: insert `r` after the elements of strictly greater
length, before the first element of length `≤ r.seqLen` (so an earlier
element of equal length stays first). -/
def insertDescByLen (r : Record) : List Record → List Record
  | [] => [r]
  | x :: xs =>
    if r.seqLen < x.seqLen then x :: insertDescByLen r xs
    else r :: x :: xs

/-- `sorted(records, key=lambda r: len(r.seq), reverse=True)`: a stable
sort by sequence length, descending, returning a new list. -/
def sortedDescByLen : List Record → List Record
  | [] => []
  | x :: xs => insertDescByLen x (sortedDescByLen xs)

/-- The plot artifact: filename, x-axis labels and y values in plotted
order. -/
structure PlotFile where
  filename : String
  xs : List String
  ys : List Nat
deriving Repr, DecidableEq

/-- `NCBIRetriever.generate_plot(self, records, filename)`: sorts a copy
of `records` by length descending (`sorted`, which does not mutate its
argument), plots ids against lengths in that order, saves the file.
Returns the plot artifact, the caller's sequence as it stands after the
call, and the log. -/
def generate_plot (records : List Record) (filename : String) :
    PlotFile × List Record × List String :=
  let sorted_records := sortedDescByLen records
  let args := sorted_records.map (fun rec => rec.id)
  let lengths := sorted_records.map (fun rec => rec.seqLen)
  ({ filename := filename, xs := args, ys := lengths },
    records, ["Saved plot to " ++ filename])

/-- Observable events of a `main` run: printed messages, calls to
`fetch_records`, and file writes. -/
inductive Event where
  | msg (s : String)
  | fetchCall (start max_records : Int)
  | csvWrite (filename : String) (table : List (List String))
  | plotWrite (p : PlotFile)
deriving Repr, DecidableEq

/-- The non-interactive inputs `main` reads: email, api key, taxid and
the two integer length bounds. -/
structure MainInput where
  email : String
  api_key : String
  taxid : String
  min_len : Int
  max_len : Int

/-- `main()` (embedded as `mainWorkflow`): constructs a fresh retriever, searches, exits early on a
falsy count (`if not count`), otherwise fetches one page of up to 200
records, filters, exits early on an empty filtered list, and otherwise
writes the CSV report and the plot.  Returns the event trace; the
function is total, so every run terminates normally (exit code 0). -/
def mainWorkflow (remote : Remote) (inp : MainInput) : List Event :=
  let retriever : NCBIRetriever := {}
  let step1 := search_taxid remote retriever inp.taxid
  let r1 := step1.1
  let countOpt := step1.2.1
  let ev1 := step1.2.2.map Event.msg
  if countOpt.getD 0 = 0 then
    ev1 ++ [Event.msg "No records found. Exiting."]
  else
    let ev2 := ev1 ++ [Event.msg "Fetching records...", Event.fetchCall 0 200]
    let step2 := fetch_records remote r1 0 200
    let all_records := step2.1
    let ev3 := ev2 ++ step2.2.2.map Event.msg ++
      [Event.msg ("Fetched " ++ toString all_records.length ++
        " records. Filtering by length...")]
    let filtered := filter_by_length all_records inp.min_len inp.max_len
    if filtered.isEmpty then
      ev3 ++ [Event.msg "No records matched the length criteria."]
    else
      let csv_file := "taxid_" ++ inp.taxid ++ "_report.csv"
      let step3 := generate_csv filtered csv_file
      let ev4 := ev3 ++ [Event.csvWrite step3.1 step3.2.1] ++
        step3.2.2.map Event.msg
      let plot_file := "taxid_" ++ inp.taxid ++ "_plot.png"
      let step4 := generate_plot filtered plot_file
      ev4 ++ [Event.plotWrite step4.1] ++ step4.2.2.map Event.msg

/-! ## Concrete fixtures used by witnesses and counterexamples -/

/-- A concrete record of length 5. -/
def recA : Record := { id := "A1", seq := "aaaaa", description := "desc one" }

/-- A concrete record of length 10. -/
def recB : Record := { id := "A2", seq := "bbbbbbbbbb", description := "desc two" }

/-- A concrete record of length 5 (ties with `recA`). -/
def recC : Record := { id := "A3", seq := "ccccc", description := "desc three" }

/-- A remote service on which every call raises. -/
def remoteDown : Remote :=
  { taxonomyLookup := fun _ => none, esearch := fun _ => none,
    efetchParse := fun _ _ _ _ => none }

/-- A remote service on which the search succeeds with count 0. -/
def remoteZeroCount : Remote :=
  { taxonomyLookup := fun _ => some "Homo sapiens",
    esearch := fun _ => some { count := 0, webEnv := "WE0", queryKey := "QK0" },
    efetchParse := fun _ _ _ _ => some [] }

/-- A remote service on which everything succeeds with three records. -/
def remoteOk : Remote :=
  { taxonomyLookup := fun _ => some "Homo sapiens",
    esearch := fun _ => some { count := 3, webEnv := "WE1", queryKey := "QK1" },
    efetchParse := fun _ _ _ _ => some [recA, recB, recC] }

/-- A remote service on which the search succeeds but the fetch (or the
parsing of its payload) raises. -/
def remoteFetchFail : Remote :=
  { taxonomyLookup := fun _ => some "Homo sapiens",
    esearch := fun _ => some { count := 3, webEnv := "WE1", queryKey := "QK1" },
    efetchParse := fun _ _ _ _ => none }

/-! ## Helper lemmas shared by several claims -/

/-- With a stored session handle, `fetch_records` issues exactly one
remote request, whose `retmax` is `min max_records 500` and whose
handle is the stored one, whatever the fetch outcome. -/
theorem fetch_records_requests_of_session (remote : Remote) (self : NCBIRetriever)
    (start max_records : Int) (we qk : String)
    (hwe : self.webenv = some we) (hqk : self.query_key = some qk) :
    (fetch_records remote self start max_records).2.1 =
      [{ db := "nucleotide", rettype := "gb", retmode := "text",
         retstart := start, retmax := min max_records 500,
         webenv := we, query_key := qk }] := by
  simp only [fetch_records, hwe, hqk]
  split <;> simp

/-- With a stored session handle, the log of `fetch_records` is either
empty or the fetch-error diagnostic; in particular it is never the
missing-session diagnostic. -/
theorem fetch_records_log_of_session (remote : Remote) (self : NCBIRetriever)
    (start max_records : Int) (we qk : String)
    (hwe : self.webenv = some we) (hqk : self.query_key = some qk) :
    (fetch_records remote self start max_records).2.2 = [] ∨
    (fetch_records remote self start max_records).2.2 = ["Error fetching records"] := by
  simp only [fetch_records, hwe, hqk]
  split
  · exact Or.inl rfl
  · exact Or.inr rfl

/-- Whenever the taxonomy lookup raises, the search raises, or the
search succeeds with count 0, `search_taxid` leaves the instance state
unchanged and returns `None`. -/
theorem search_taxid_noSuccess (remote : Remote) (self : NCBIRetriever) (taxid : String)
    (h : remote.taxonomyLookup taxid = none
      ∨ remote.esearch ("txid" ++ taxid ++ "[Organism]") = none
      ∨ ∃ sr, remote.esearch ("txid" ++ taxid ++ "[Organism]") = some sr ∧ sr.count = 0) :
    (search_taxid remote self taxid).1 = self ∧
    (search_taxid remote self taxid).2.1 = none := by
  rcases h with h | h | ⟨sr, hs, hc⟩
  · simp [search_taxid, h]
  · cases hl : remote.taxonomyLookup taxid <;> simp [search_taxid, hl, h]
  · cases hl : remote.taxonomyLookup taxid <;> simp [search_taxid, hl, hs, hc]

/-- An instance state holding a stored session handle, as left by a
successful `search_taxid` on `remoteOk` or `remoteFetchFail`. -/
def sessionState : NCBIRetriever :=
  { webenv := some "WE1", query_key := some "QK1", count := some 3 }

/-! ## Claims -/

/-- C1: a call to `fetch_records` made without a prior successful
search (missing `webenv` or `query_key` attribute) never throws: it
returns the empty sequence, issues no remote request, and logs the
diagnostic message instead of raising. -/
theorem fetch_records_without_session_safe (remote : Remote) (self : NCBIRetriever)
    (start max_records : Int)
    (h : self.webenv = none ∨ self.query_key = none) :
    fetch_records remote self start max_records =
      ([], [], ["No search results to fetch. Run search_taxid() first."]) := by
  cases hwe : self.webenv <;> cases hqk : self.query_key <;>
    simp_all [fetch_records]

/-- C1 witness: a fresh retriever instance has no session, and fetching
on it returns the empty sequence with the diagnostic. -/
theorem fetch_records_without_session_safe_witness :
    fetch_records remoteOk {} 0 100 =
      ([], [], ["No search results to fetch. Run search_taxid() first."]) :=
  fetch_records_without_session_safe remoteOk {} 0 100 (Or.inl rfl)

/-- C2: with a stored session handle, `fetch_records` issues exactly
one remote request, whose page size (`retmax`) is
`min max_records 500`. -/
theorem fetch_records_single_capped_page (remote : Remote) (self : NCBIRetriever)
    (start max_records : Int) (we qk : String)
    (hwe : self.webenv = some we) (hqk : self.query_key = some qk) :
    (fetch_records remote self start max_records).2.1 =
      [{ db := "nucleotide", rettype := "gb", retmode := "text",
         retstart := start, retmax := min max_records 500,
         webenv := we, query_key := qk }] :=
  fetch_records_requests_of_session remote self start max_records we qk hwe hqk

/-- C2 witness: for `max_records = 1000` the single request issued asks
for 500 records, not 1000. -/
theorem fetch_records_single_capped_page_witness :
    (fetch_records remoteOk sessionState 0 1000).2.1 =
      [{ db := "nucleotide", rettype := "gb", retmode := "text",
         retstart := 0, retmax := 500, webenv := "WE1", query_key := "QK1" }] := by
  have h := fetch_records_single_capped_page remoteOk sessionState 0 1000 "WE1" "QK1" rfl rfl
  simpa using h

/-- C3: when the remote fetch call or the parsing of the page's payload
fails, `fetch_records` catches the failure and returns the empty
sequence with the fetch-error diagnostic, instead of propagating the
exception. -/
theorem fetch_records_failure_yields_empty (remote : Remote) (self : NCBIRetriever)
    (start max_records : Int) (we qk : String)
    (hwe : self.webenv = some we) (hqk : self.query_key = some qk)
    (hfail : remote.efetchParse we qk start (min max_records 500) = none) :
    (fetch_records remote self start max_records).1 = [] ∧
    (fetch_records remote self start max_records).2.2 = ["Error fetching records"] := by
  simp [fetch_records, hwe, hqk, hfail]

/-- C3 witness: on a service whose fetch raises, the page contributes
zero records and the error is logged. -/
theorem fetch_records_failure_yields_empty_witness :
    (fetch_records remoteFetchFail sessionState 0 100).1 = [] ∧
    (fetch_records remoteFetchFail sessionState 0 100).2.2 = ["Error fetching records"] :=
  fetch_records_failure_yields_empty remoteFetchFail sessionState 0 100 "WE1" "QK1"
    rfl rfl rfl

/-- C4 counterexample: `search_taxid` returns `None` both when the
remote search succeeds with count 0 and when the remote raises, so the
zero-count result is not distinguishable from the error result. -/
theorem search_taxid_zero_vs_error_same_result :
    (search_taxid remoteZeroCount {} "9606").2.1 = none ∧
    (search_taxid remoteDown {} "9606").2.1 = none ∧
    (search_taxid remoteZeroCount {} "9606").2.1 =
      (search_taxid remoteDown {} "9606").2.1 :=
  ⟨rfl, rfl, rfl⟩

/-- A remote service whose taxonomy lookup succeeds but whose search
(the second lookup step) raises. -/
def remoteSearchFail : Remote :=
  { taxonomyLookup := fun _ => some "Homo sapiens",
    esearch := fun _ => none,
    efetchParse := fun _ _ _ _ => none }

/-- Strings whose first characters differ are different. -/
theorem string_ne_of_head_ne (a b : String) (c d : Char)
    (ha : a.data.head? = some c) (hb : b.data.head? = some d) (hcd : c ≠ d) :
    a ≠ b := by
  intro h
  rw [h, hb] at ha
  exact hcd (Option.some.inj ha.symm)

/-- C4 (amended): when `search_taxid` succeeds remotely with count 0 it
returns `None` and leaves the instance unchanged — the same return
value and state effect as when a remote error occurs during either
lookup step (the taxonomy lookup or the search); the outcomes differ
only in the printed log, not in the returned value. -/
theorem search_taxid_zero_and_error_both_none (remote bad : Remote)
    (self : NCBIRetriever) (taxid org : String) (sr : SearchData)
    (h1 : remote.taxonomyLookup taxid = some org)
    (h2 : remote.esearch ("txid" ++ taxid ++ "[Organism]") = some sr)
    (h0 : sr.count = 0)
    (e : bad.taxonomyLookup taxid = none
      ∨ ∃ org2, bad.taxonomyLookup taxid = some org2
          ∧ bad.esearch ("txid" ++ taxid ++ "[Organism]") = none) :
    (search_taxid remote self taxid).2.1 = none ∧
    (search_taxid bad self taxid).2.1 = none ∧
    (search_taxid remote self taxid).1 = self ∧
    (search_taxid bad self taxid).1 = self ∧
    (search_taxid remote self taxid).2.2 ≠ (search_taxid bad self taxid).2.2 := by
  have hA := search_taxid_noSuccess remote self taxid (Or.inr (Or.inr ⟨sr, h2, h0⟩))
  have hB : (search_taxid bad self taxid).1 = self ∧
      (search_taxid bad self taxid).2.1 = none := by
    rcases e with e1 | ⟨org2, hb1, hb2⟩
    · exact search_taxid_noSuccess bad self taxid (Or.inl e1)
    · exact search_taxid_noSuccess bad self taxid (Or.inr (Or.inl hb2))
  refine ⟨hA.2, hB.2, hA.1, hB.1, ?_⟩
  have hLogA : (search_taxid remote self taxid).2.2 =
      ["Searching for records with taxID: " ++ taxid,
       "Organism: " ++ org ++ " (TaxID: " ++ taxid ++ ")",
       "Found " ++ toString sr.count ++ " records for " ++ org ++
         " (TaxID: " ++ taxid ++ ")"] := by
    simp [search_taxid, h1, h2, h0]
  rcases e with e1 | ⟨org2, hb1, hb2⟩
  · -- the taxonomy lookup raised: the error log has two lines, the
    -- zero-count log has three
    have hLogB : (search_taxid bad self taxid).2.2 =
        ["Searching for records with taxID: " ++ taxid,
         "Error searching TaxID " ++ taxid] := by
      simp [search_taxid, e1]
    intro heq
    rw [hLogA, hLogB] at heq
    have hlen := congrArg List.length heq
    simp at hlen
  · -- the search raised: both logs have three lines, but the third
    -- line starts with a different word
    have hLogB : (search_taxid bad self taxid).2.2 =
        ["Searching for records with taxID: " ++ taxid,
         "Organism: " ++ org2 ++ " (TaxID: " ++ taxid ++ ")",
         "Error searching TaxID " ++ taxid] := by
      simp [search_taxid, hb1, hb2]
    intro heq
    rw [hLogA, hLogB] at heq
    injection heq with e1 heq'
    injection heq' with e2 heq''
    injection heq'' with e3 _
    exact absurd e3 (string_ne_of_head_ne _ _ 'F' 'E' rfl rfl (by decide))

/-- C4 (amended) witness: a concrete zero-count service and a concrete
service failing in the second lookup step yield the same `None` result
with different logs. -/
theorem search_taxid_zero_and_error_both_none_witness :
    (search_taxid remoteZeroCount {} "9606").2.1 = none ∧
    (search_taxid remoteSearchFail {} "9606").2.1 = none ∧
    (search_taxid remoteZeroCount {} "9606").1 = {} ∧
    (search_taxid remoteSearchFail {} "9606").1 = {} ∧
    (search_taxid remoteZeroCount {} "9606").2.2 ≠
      (search_taxid remoteSearchFail {} "9606").2.2 :=
  search_taxid_zero_and_error_both_none remoteZeroCount remoteSearchFail {} "9606"
    "Homo sapiens" { count := 0, webEnv := "WE0", queryKey := "QK0" } rfl rfl rfl
    (Or.inr ⟨"Homo sapiens", rfl, rfl⟩)

/-- C6: `filter_by_length` returns exactly the subsequence of its input
whose lengths lie in the closed interval: it is a sublist (order
preserved), every kept record satisfies both inclusive bounds, every
qualifying occurrence is kept (the length equals the count of
qualifying records), empty input yields empty output, and inverted
bounds yield empty output without error. -/
theorem filter_by_length_exact (R : List Record) (lo hi : Int) :
    List.Sublist (filter_by_length R lo hi) R ∧
    (∀ r ∈ filter_by_length R lo hi, lo ≤ (r.seqLen : Int) ∧ (r.seqLen : Int) ≤ hi) ∧
    (∀ r ∈ R, lo ≤ (r.seqLen : Int) → (r.seqLen : Int) ≤ hi →
      r ∈ filter_by_length R lo hi) ∧
    (filter_by_length R lo hi).length =
      R.countP (fun rec => decide (lo ≤ (rec.seqLen : Int)) &&
        decide ((rec.seqLen : Int) ≤ hi)) ∧
    filter_by_length ([] : List Record) lo hi = [] ∧
    (hi < lo → filter_by_length R lo hi = []) := by
  refine ⟨List.filter_sublist R, ?_, ?_, ?_, rfl, ?_⟩
  · intro r hr
    have hmem := List.mem_filter.mp hr
    simp only [Bool.and_eq_true, decide_eq_true_eq] at hmem
    exact hmem.2
  · intro r hr h1 h2
    refine List.mem_filter.mpr ⟨hr, ?_⟩
    simp only [Bool.and_eq_true, decide_eq_true_eq]
    exact ⟨h1, h2⟩
  · exact (List.countP_eq_length_filter _ _).symm
  · intro hlt
    refine List.filter_eq_nil_iff.mpr ?_
    intro r _
    simp only [Bool.and_eq_true, decide_eq_true_eq, not_and]
    intro h1
    omega

/-- C6 witness: inclusive bounds keep the two length-5 records in
order, and inverted bounds yield the empty list. -/
theorem filter_by_length_exact_witness :
    filter_by_length [recA, recB, recC] 5 5 = [recA, recC] ∧
    filter_by_length [recA, recB, recC] 9 5 = [] :=
  ⟨rfl, (filter_by_length_exact [recA, recB, recC] 9 5).2.2.2.2.2 (by decide)⟩

/-- C7: `filter_by_length` is idempotent: filtering an already filtered
list with the same bounds returns it unchanged. -/
theorem filter_by_length_idempotent (R : List Record) (lo hi : Int) :
    filter_by_length (filter_by_length R lo hi) lo hi = filter_by_length R lo hi := by
  simp only [filter_by_length]
  refine List.filter_eq_self.mpr ?_
  intro r hr
  exact (List.mem_filter.mp hr).2

/-- C9: the CSV table written by `generate_csv` consists of the header
row `Accession number,Length,Description` followed by exactly one row
per record, holding that record's id, length and description in input
order, each row having the three fields and no index column. -/
theorem generate_csv_table_shape (records : List Record) (filename : String) :
    (generate_csv records filename).1 = filename ∧
    (generate_csv records filename).2.1 =
      ["Accession number", "Length", "Description"] ::
        records.map (fun r => [r.id, toString r.seqLen, r.description]) ∧
    ∀ row ∈ (generate_csv records filename).2.1, row.length = 3 := by
  refine ⟨rfl, rfl, ?_⟩
  intro row hrow
  simp only [generate_csv, DataFrame.to_csv, if_neg, Bool.false_eq_true, if_false,
    List.mem_cons, List.mem_map] at hrow
  rcases hrow with rfl | ⟨r, _, rfl⟩
  · rfl
  · rfl

/-- C9 witness: the concrete table for two records. -/
theorem generate_csv_table_shape_witness :
    (generate_csv [recA, recB] "taxid_9606_report.csv").2.1 =
      [["Accession number", "Length", "Description"],
       ["A1", "5", "desc one"], ["A2", "10", "desc two"]] := by
  have h := generate_csv_table_shape [recA, recB] "taxid_9606_report.csv"
  rw [h.2.1]
  rfl

/-- Inserting with `insertDescByLen` is a permutation: the result holds
`r` and the elements of `l`. -/
theorem insertDescByLen_perm (r : Record) (l : List Record) :
    List.Perm (insertDescByLen r l) (r :: l) := by
  induction l with
  | nil => simp [insertDescByLen]
  | cons x xs ih =>
    by_cases h : r.seqLen < x.seqLen
    · simp only [insertDescByLen, if_pos h]
      exact (ih.cons x).trans (List.Perm.swap r x xs)
    · simp [insertDescByLen, if_neg h]

/-- Membership in an `insertDescByLen` result. -/
theorem mem_insertDescByLen {a r : Record} {l : List Record} :
    a ∈ insertDescByLen r l ↔ a = r ∨ a ∈ l := by
  simpa using (insertDescByLen_perm r l).mem_iff

/-- `insertDescByLen` preserves the non-increasing-length invariant. -/
theorem insertDescByLen_pairwise (r : Record) (l : List Record)
    (h : l.Pairwise (fun a b => b.seqLen ≤ a.seqLen)) :
    (insertDescByLen r l).Pairwise (fun a b => b.seqLen ≤ a.seqLen) := by
  induction l with
  | nil => simp [insertDescByLen]
  | cons x xs ih =>
    rcases List.pairwise_cons.mp h with ⟨hx, hxs⟩
    by_cases hr : r.seqLen < x.seqLen
    · simp only [insertDescByLen, if_pos hr]
      refine List.pairwise_cons.mpr ⟨?_, ih hxs⟩
      intro b hb
      rcases mem_insertDescByLen.mp hb with rfl | hbxs
      · exact Nat.le_of_lt hr
      · exact hx b hbxs
    · simp only [insertDescByLen, if_neg hr]
      refine List.pairwise_cons.mpr ⟨?_, h⟩
      intro b hb
      rcases List.mem_cons.mp hb with rfl | hbxs
      · omega
      · exact le_trans (hx b hbxs) (Nat.le_of_not_lt hr)

/-- The sorted copy used by `generate_plot` is a permutation of the
input. -/
theorem sortedDescByLen_perm (l : List Record) :
    List.Perm (sortedDescByLen l) l := by
  induction l with
  | nil => rfl
  | cons x xs ih =>
    exact (insertDescByLen_perm x (sortedDescByLen xs)).trans (ih.cons x)

/-- The sorted copy used by `generate_plot` is ordered by sequence
length, descending. -/
theorem sortedDescByLen_pairwise (l : List Record) :
    (sortedDescByLen l).Pairwise (fun a b => b.seqLen ≤ a.seqLen) := by
  induction l with
  | nil => simp [sortedDescByLen]
  | cons x xs ih => exact insertDescByLen_pairwise x _ ih

/-- Filtering an `insertDescByLen` result at one length value: the
inserted record, if it has that length, lands in front of the other
records of that length (every record it was inserted behind has
strictly greater length). -/
theorem insertDescByLen_filter_len (r : Record) (l : List Record) (n : Nat) :
    (insertDescByLen r l).filter (fun x => x.seqLen == n) =
      if r.seqLen == n then r :: l.filter (fun x => x.seqLen == n)
      else l.filter (fun x => x.seqLen == n) := by
  induction l with
  | nil =>
    cases hrn : (r.seqLen == n) <;> simp [insertDescByLen, List.filter, hrn]
  | cons x xs ih =>
    by_cases hlt : r.seqLen < x.seqLen
    · simp only [insertDescByLen, if_pos hlt]
      rw [List.filter_cons, List.filter_cons]
      cases hx : (x.seqLen == n)
      · simp only [Bool.false_eq_true, if_false]
        exact ih
      · have hxn : x.seqLen = n := by simpa using hx
        have hrn : (r.seqLen == n) = false := by
          simp only [beq_eq_false_iff_ne]
          omega
        simp only [if_true, ih, hrn, Bool.false_eq_true, if_false]
    · simp only [insertDescByLen, if_neg hlt]
      rw [List.filter_cons]

/-- Stability of the sort used by `generate_plot`: for each length
value, the records of that length appear in the sorted copy in their
original relative order. -/
theorem sortedDescByLen_filter_len (l : List Record) (n : Nat) :
    (sortedDescByLen l).filter (fun x => x.seqLen == n) =
      l.filter (fun x => x.seqLen == n) := by
  induction l with
  | nil => rfl
  | cons x xs ih =>
    show (insertDescByLen x (sortedDescByLen xs)).filter (fun x => x.seqLen == n) = _
    rw [insertDescByLen_filter_len, ih, List.filter_cons]

/-- C8: `generate_plot` leaves the caller's sequence unchanged and
plots from a sorted copy: the plotted ids and lengths come from a list
that is a permutation of the input, ordered by sequence length
descending, and stable (records of equal length keep their original
relative order). -/
theorem generate_plot_preserves_input_and_sorts (records : List Record) (filename : String) :
    (generate_plot records filename).2.1 = records ∧
    (generate_plot records filename).1.xs = (sortedDescByLen records).map Record.id ∧
    (generate_plot records filename).1.ys = (sortedDescByLen records).map Record.seqLen ∧
    List.Perm (sortedDescByLen records) records ∧
    (sortedDescByLen records).Pairwise (fun a b => b.seqLen ≤ a.seqLen) ∧
    ∀ n : Nat, (sortedDescByLen records).filter (fun x => x.seqLen == n) =
      records.filter (fun x => x.seqLen == n) :=
  ⟨rfl, rfl, rfl, sortedDescByLen_perm records, sortedDescByLen_pairwise records,
    fun n => sortedDescByLen_filter_len records n⟩

/-- C8 witness: on a concrete list with a length tie, the caller's list
comes back unchanged and the plot orders `recB` (length 10) first while
the tied `recA`, `recC` (length 5) keep their original order. -/
theorem generate_plot_preserves_input_and_sorts_witness :
    (generate_plot [recA, recB, recC] "taxid_9606_plot.png").2.1 = [recA, recB, recC] ∧
    (generate_plot [recA, recB, recC] "taxid_9606_plot.png").1.xs = ["A2", "A1", "A3"] ∧
    (generate_plot [recA, recB, recC] "taxid_9606_plot.png").1.ys = [10, 5, 5] :=
  ⟨(generate_plot_preserves_input_and_sorts [recA, recB, recC] "taxid_9606_plot.png").1,
    rfl, rfl⟩

/-- A concrete set of workflow inputs used by witnesses. -/
def inputFix : MainInput :=
  { email := "user@example.org", api_key := "key", taxid := "9606",
    min_len := 1, max_len := 10 }

/-- C5: when `search_taxid` yields no results (returns `None`, covering
both the zero-count and the failure outcome) or returns a zero count,
the workflow never calls `fetch_records`, writes no CSV and no plot
file, and terminates with the informational exit message (a normal
return, hence a non-error exit). -/
theorem workflow_stops_without_results (remote : Remote) (inp : MainInput)
    (h : (search_taxid remote {} inp.taxid).2.1 = none ∨
         (search_taxid remote {} inp.taxid).2.1 = some 0) :
    (∀ s m, Event.fetchCall s m ∉ mainWorkflow remote inp) ∧
    (∀ f t, Event.csvWrite f t ∉ mainWorkflow remote inp) ∧
    (∀ p, Event.plotWrite p ∉ mainWorkflow remote inp) ∧
    (mainWorkflow remote inp).getLast? = some (Event.msg "No records found. Exiting.") := by
  have hred : mainWorkflow remote inp =
      (search_taxid remote {} inp.taxid).2.2.map Event.msg ++
        [Event.msg "No records found. Exiting."] := by
    rcases h with h | h <;> simp [mainWorkflow, h]
  refine ⟨?_, ?_, ?_, ?_⟩
  · intro s m hmem
    rw [hred] at hmem
    rcases List.mem_append.mp hmem with hmem | hmem
    · rcases List.mem_map.mp hmem with ⟨a, _, ha⟩
      exact Event.noConfusion ha
    · simp at hmem
  · intro f t hmem
    rw [hred] at hmem
    rcases List.mem_append.mp hmem with hmem | hmem
    · rcases List.mem_map.mp hmem with ⟨a, _, ha⟩
      exact Event.noConfusion ha
    · simp at hmem
  · intro p hmem
    rw [hred] at hmem
    rcases List.mem_append.mp hmem with hmem | hmem
    · rcases List.mem_map.mp hmem with ⟨a, _, ha⟩
      exact Event.noConfusion ha
    · simp at hmem
  · rw [hred]
    exact List.getLast?_concat _

/-- C5 witness: on a service whose search raises, the concrete run
performs no fetch and writes nothing. -/
theorem workflow_stops_without_results_witness :
    (∀ s m, Event.fetchCall s m ∉ mainWorkflow remoteDown inputFix) ∧
    (∀ f t, Event.csvWrite f t ∉ mainWorkflow remoteDown inputFix) ∧
    (∀ p, Event.plotWrite p ∉ mainWorkflow remoteDown inputFix) ∧
    (mainWorkflow remoteDown inputFix).getLast? =
      some (Event.msg "No records found. Exiting.") :=
  workflow_stops_without_results remoteDown inputFix (Or.inl rfl)

/-- C10: a stored session handle is never cleared: after a later
`search_taxid` call that fails or finds zero records (and so returns
`None`), the earlier handle is still in place, and a subsequent
`fetch_records` passes the precondition check and issues its one
request against the earlier, stale handle. -/
theorem stale_session_survives_failed_search (remote : Remote) (s : NCBIRetriever)
    (taxid we qk : String) (start max_records : Int)
    (hwe : s.webenv = some we) (hqk : s.query_key = some qk)
    (h : remote.taxonomyLookup taxid = none
      ∨ remote.esearch ("txid" ++ taxid ++ "[Organism]") = none
      ∨ ∃ sr, remote.esearch ("txid" ++ taxid ++ "[Organism]") = some sr ∧ sr.count = 0) :
    (search_taxid remote s taxid).2.1 = none ∧
    (search_taxid remote s taxid).1 = s ∧
    (fetch_records remote (search_taxid remote s taxid).1 start max_records).2.1 =
      [{ db := "nucleotide", rettype := "gb", retmode := "text",
         retstart := start, retmax := min max_records 500,
         webenv := we, query_key := qk }] ∧
    (fetch_records remote (search_taxid remote s taxid).1 start max_records).2.2 ≠
      ["No search results to fetch. Run search_taxid() first."] := by
  obtain ⟨h1, h2⟩ := search_taxid_noSuccess remote s taxid h
  refine ⟨h2, h1, ?_, ?_⟩
  · rw [h1]
    exact fetch_records_requests_of_session remote s start max_records we qk hwe hqk
  · rw [h1]
    rcases fetch_records_log_of_session remote s start max_records we qk hwe hqk with hl | hl <;>
      rw [hl]
    · simp
    · decide

/-- C10 witness: a retriever holding a session from an earlier
successful search keeps it across a failing search, and the following
fetch silently reuses the stale handle. -/
theorem stale_session_survives_failed_search_witness :
    (search_taxid remoteDown sessionState "9606").2.1 = none ∧
    (search_taxid remoteDown sessionState "9606").1 = sessionState ∧
    (fetch_records remoteDown (search_taxid remoteDown sessionState "9606").1 0 200).2.1 =
      [{ db := "nucleotide", rettype := "gb", retmode := "text",
         retstart := 0, retmax := 200, webenv := "WE1", query_key := "QK1" }] ∧
    (fetch_records remoteDown (search_taxid remoteDown sessionState "9606").1 0 200).2.2 ≠
      ["No search results to fetch. Run search_taxid() first."] := by
  have h := stale_session_survives_failed_search remoteDown sessionState "9606" "WE1" "QK1"
    0 200 rfl rfl (Or.inl rfl)
  simpa using h
